import Mathlib

/-!
Shallow embedding of the circuit-proposal marshalling layer of sapling-js:
the `CreateCircuit` domain model and its conversions to and from the wire
(protobuf) representation (`src/libsplinter/src/admin/messages.rs`), the
REST route error taxonomy (`src/libsplinter/src/admin/rest_api/error.rs`),
and the environment-variable configuration builder
(`src/splinterd/src/config/env.rs`).

Machine bytes (`Vec<u8>` / protobuf `bytes`) are embedded as `List Nat`,
strings as Lean `String`, repeated protobuf fields as `List`, and Rust
`Result<T, E>` as `Except E T`.
-/

/-! ## Wire (protobuf-generated) types, `crate::protos::admin` -/

namespace admin

/-- Wire enumeration `Circuit_AuthorizationType`: code 0 is the unset sentinel. -/
inductive Circuit_AuthorizationType
  | UNSET_AUTHORIZATION_TYPE
  | TRUST_AUTHORIZATION
deriving DecidableEq

/-- Wire enumeration `Circuit_PersistenceType`: code 0 is the unset sentinel. -/
inductive Circuit_PersistenceType
  | UNSET_PERSISTENCE_TYPE
  | ANY_PERSISTENCE
deriving DecidableEq

/-- Wire enumeration `Circuit_RouteType`: code 0 is the unset sentinel. -/
inductive Circuit_RouteType
  | UNSET_ROUTE_TYPE
  | ANY_ROUTE
deriving DecidableEq

/-- Wire message `admin::SplinterNode`. -/
structure SplinterNode where
  node_id : String
  endpoint : String
deriving DecidableEq

/-- Wire message `admin::SplinterService`; `allowed_nodes` is a repeated string field. -/
structure SplinterService where
  service_id : String
  service_type : String
  allowed_nodes : List String
deriving DecidableEq

/-- Wire message `admin::Circuit`; `roster` and `members` are repeated sub-messages. -/
structure Circuit where
  circuit_id : String
  roster : List SplinterService
  members : List SplinterNode
  authorization_type : Circuit_AuthorizationType
  persistence : Circuit_PersistenceType
  routes : Circuit_RouteType
  circuit_management_type : String
  application_metadata : List Nat
deriving DecidableEq

/-- Wire message `admin::CircuitCreateRequest`, holding the proposed circuit. -/
structure CircuitCreateRequest where
  circuit : Circuit
deriving DecidableEq

end admin

/-! ## Domain model, `libsplinter/src/admin/messages.rs` -/

/-- Domain enumeration `AuthorizationType` (single variant). -/
inductive AuthorizationType
  | Trust
deriving DecidableEq

/-- Domain enumeration `PersistenceType` (single variant). -/
inductive PersistenceType
  | Any
deriving DecidableEq

/-- Domain enumeration `RouteType` (single variant). -/
inductive RouteType
  | Any
deriving DecidableEq

/-- Domain struct `SplinterNode`. -/
structure SplinterNode where
  node_id : String
  endpoint : String
deriving DecidableEq

/-- Domain struct `SplinterService`. -/
structure SplinterService where
  service_id : String
  service_type : String
  allowed_nodes : List String
deriving DecidableEq

/-- Domain struct `CreateCircuit`: a proposal to establish a new circuit. -/
structure CreateCircuit where
  circuit_id : String
  roster : List SplinterService
  members : List SplinterNode
  authorization_type : AuthorizationType
  persistence : PersistenceType
  routes : RouteType
  circuit_management_type : String
  application_metadata : List Nat
deriving DecidableEq

/-- `MarshallingError`: the marshalling layer's error type. -/
inductive MarshallingError
  | UnsetField (reason : String)
deriving DecidableEq

/-- Rust `.into_iter().map(f).collect::<Result<Vec<_>, _>>()`: collects a list of
results into a result of a list, short-circuiting on the first error. -/
def collectResults : List (Except MarshallingError α) → Except MarshallingError (List α)
  | [] => Except.ok []
  | Except.error e :: _ => Except.error e
  | Except.ok a :: rest =>
    match collectResults rest with
    | Except.error e => Except.error e
    | Except.ok xs => Except.ok (a :: xs)

/-- `SplinterNode::into_proto`: builds the wire node from the domain node. -/
def SplinterNode.into_proto (self : SplinterNode) : admin.SplinterNode :=
  { node_id := self.node_id, endpoint := self.endpoint }

/-- `SplinterNode::from_proto`: takes each field out of the wire node; never fails. -/
def SplinterNode.from_proto (proto : admin.SplinterNode) :
    Except MarshallingError SplinterNode :=
  Except.ok { node_id := proto.node_id, endpoint := proto.endpoint }

/-- `SplinterService::into_proto`: builds the wire service from the domain service. -/
def SplinterService.into_proto (self : SplinterService) : admin.SplinterService :=
  { service_id := self.service_id
    service_type := self.service_type
    allowed_nodes := self.allowed_nodes }

/-- `SplinterService::from_proto`: takes each field out of the wire service
(`allowed_nodes` is mapped element-wise through `String::from`); never fails. -/
def SplinterService.from_proto (proto : admin.SplinterService) :
    Except MarshallingError SplinterService :=
  Except.ok
    { service_id := proto.service_id
      service_type := proto.service_type
      allowed_nodes := proto.allowed_nodes.map (fun s => s) }

/-- `CreateCircuit::from_proto`: resolves the three enumerated fields (an unset wire
code returns `MarshallingError::UnsetField` at once), then converts `roster` and
`members` element-wise, short-circuiting on the first element failure. -/
def CreateCircuit.from_proto (proto : admin.Circuit) :
    Except MarshallingError CreateCircuit :=
  match proto.authorization_type with
  | admin.Circuit_AuthorizationType.UNSET_AUTHORIZATION_TYPE =>
    Except.error (MarshallingError.UnsetField "Unset authorization type")
  | admin.Circuit_AuthorizationType.TRUST_AUTHORIZATION =>
    match proto.persistence with
    | admin.Circuit_PersistenceType.UNSET_PERSISTENCE_TYPE =>
      Except.error (MarshallingError.UnsetField "Unset persistence type")
    | admin.Circuit_PersistenceType.ANY_PERSISTENCE =>
      match proto.routes with
      | admin.Circuit_RouteType.UNSET_ROUTE_TYPE =>
        Except.error (MarshallingError.UnsetField "Unset route type")
      | admin.Circuit_RouteType.ANY_ROUTE =>
        match collectResults (proto.roster.map SplinterService.from_proto) with
        | Except.error e => Except.error e
        | Except.ok roster =>
          match collectResults (proto.members.map SplinterNode.from_proto) with
          | Except.error e => Except.error e
          | Except.ok members =>
            Except.ok
              { circuit_id := proto.circuit_id
                roster := roster
                members := members
                authorization_type := AuthorizationType.Trust
                persistence := PersistenceType.Any
                routes := RouteType.Any
                circuit_management_type := proto.circuit_management_type
                application_metadata := proto.application_metadata }

/-- `CreateCircuit::into_proto`: builds the wire circuit field by field (the
single-variant enumerations are matched exhaustively) and wraps it in a
`CircuitCreateRequest`; the only exit is `Ok`. -/
def CreateCircuit.into_proto (self : CreateCircuit) :
    Except MarshallingError admin.CircuitCreateRequest :=
  let circuit : admin.Circuit :=
    { circuit_id := self.circuit_id
      roster := self.roster.map SplinterService.into_proto
      members := self.members.map SplinterNode.into_proto
      circuit_management_type := self.circuit_management_type
      application_metadata := self.application_metadata
      authorization_type :=
        match self.authorization_type with
        | AuthorizationType.Trust =>
          admin.Circuit_AuthorizationType.TRUST_AUTHORIZATION
      persistence :=
        match self.persistence with
        | PersistenceType.Any => admin.Circuit_PersistenceType.ANY_PERSISTENCE
      routes :=
        match self.routes with
        | RouteType.Any => admin.Circuit_RouteType.ANY_ROUTE }
  Except.ok { circuit := circuit }

/-- `impl Display for MarshallingError`: the rendered message. -/
def MarshallingError.display : MarshallingError → String
  | MarshallingError.UnsetField _ => "Invalid enumerated type"

/-! ## Route error taxonomy, `libsplinter/src/admin/rest_api/error.rs` -/

namespace store

/-- Modelled from the spec: `store::CircuitStoreError`, the circuit-store
collaborator's error type, is declared outside the provided sources; the spec
describes it as an opaque error type implementing the standard error interface
(a displayable diagnostic with an optional underlying cause). It is embedded as
a carrier of its diagnostic message. -/
structure CircuitStoreError where
  message : String
deriving DecidableEq

/-- Modelled from the spec: the store error's Display rendering is its own
diagnostic message. -/
def CircuitStoreError.display (self : CircuitStoreError) : String :=
  self.message

end store

/-- An erased error reference, standing in for Rust's `&dyn Error` as returned by
`source()`; the only concrete cause type reachable in these files is the store error. -/
inductive DynError
  | circuitStore (e : store.CircuitStoreError)
deriving DecidableEq

/-- `impl Error for MarshallingError`: `source` is `None` on every variant. -/
def MarshallingError.source : MarshallingError → Option DynError
  | MarshallingError.UnsetField _ => none

/-- `ProposalRouteError`: errors of the proposal-lookup route. -/
inductive ProposalRouteError
  | NotFound (msg : String)
  | InternalError (msg : String)
deriving DecidableEq

/-- `impl Error for ProposalRouteError`: `source` is `None` on every variant. -/
def ProposalRouteError.source : ProposalRouteError → Option DynError
  | ProposalRouteError.NotFound _ => none
  | ProposalRouteError.InternalError _ => none

/-- `impl Display for ProposalRouteError`. -/
def ProposalRouteError.display : ProposalRouteError → String
  | ProposalRouteError.NotFound msg => "Proposal not found: " ++ msg
  | ProposalRouteError.InternalError msg => "Ran into internal error: " ++ msg

/-- `CircuitRouteError`: errors of the circuit-lookup route. -/
inductive CircuitRouteError
  | NotFound (msg : String)
  | CircuitStoreError (err : store.CircuitStoreError)
deriving DecidableEq

/-- `impl Error for CircuitRouteError`: `NotFound` has no cause, the store-error
variant reports the wrapped store error as its cause. -/
def CircuitRouteError.source : CircuitRouteError → Option DynError
  | CircuitRouteError.NotFound _ => none
  | CircuitRouteError.CircuitStoreError err => some (DynError.circuitStore err)

/-- `impl Display for CircuitRouteError`: the store-error variant renders exactly
the inner error's own message. -/
def CircuitRouteError.display : CircuitRouteError → String
  | CircuitRouteError.NotFound msg => "Circuit not found: " ++ msg
  | CircuitRouteError.CircuitStoreError err => err.display

/-- `impl From<store::CircuitStoreError> for CircuitRouteError`: wraps the store
error in the `CircuitStoreError` variant unchanged. -/
def CircuitRouteError.fromStore (err : store.CircuitStoreError) : CircuitRouteError :=
  CircuitRouteError.CircuitStoreError err

/-! ## Daemon configuration, `splinterd/src/config/env.rs` -/

/-- Modelled from the spec: `ConfigSource` is declared in the configuration
module outside the provided sources; the environment-variable reader tags its
output with the `Environment` source (asserted by the module's own test). -/
inductive ConfigSource
  | Environment
deriving DecidableEq

/-- Modelled from the spec: `PartialConfig`, the configuration-assembly
collaborator's value, is declared outside the provided sources; per the spec and
the module's test it carries its source tag and the optional state/cert
directory strings. -/
structure PartialConfig where
  source : ConfigSource
  state_dir : Option String
  cert_dir : Option String
deriving DecidableEq

/-- Modelled from the spec: `PartialConfig::new(source)` starts with every
optional value unset. -/
def PartialConfig.new (source : ConfigSource) : PartialConfig :=
  { source := source, state_dir := none, cert_dir := none }

/-- Modelled from the spec: builder setter for the certificate directory. -/
def PartialConfig.with_cert_dir (self : PartialConfig) (cert_dir : Option String) :
    PartialConfig :=
  { self with cert_dir := cert_dir }

/-- Modelled from the spec: builder setter for the state directory. -/
def PartialConfig.with_state_dir (self : PartialConfig) (state_dir : Option String) :
    PartialConfig :=
  { self with state_dir := state_dir }

/-- `EnvVarConfig`: the optional directory strings captured from the
`SPLINTER_STATE_DIR` / `SPLINTER_CERT_DIR` environment variables. -/
structure EnvVarConfig where
  state_dir : Option String
  cert_dir : Option String
deriving DecidableEq

/-- `impl PartialConfigBuilder for EnvVarConfig`: `build` starts a
`PartialConfig` with the `Environment` source and moves both captured optional
strings into it. -/
def EnvVarConfig.build (self : EnvVarConfig) : PartialConfig :=
  ((PartialConfig.new ConfigSource.Environment).with_cert_dir self.cert_dir).with_state_dir
    self.state_dir

/-! ## Payload ingestion: JSON decoding (external `serde_json` collaborator)

Request bodies are byte streams; every byte relevant here is ASCII, so the body
is embedded as a `List Char`. The JSON decoder below is a model of the external
`serde_json` collaborator, restricted to the fragment the request-body schema
uses (strings, unsigned integers, arrays, objects, literals). -/

/-- A parsed JSON value (the fragment the `CreateCircuit` schema uses). -/
inductive JsonValue
  | null
  | bool (b : Bool)
  | num (n : Nat)
  | str (s : String)
  | arr (items : List JsonValue)
  | obj (fields : List (String × JsonValue))

/-- The double-quote character (ASCII 34). -/
def quoteChar : Char := Char.ofNat 34

/-- The backslash character (ASCII 92). -/
def backslashChar : Char := Char.ofNat 92

/-- The opening-brace character (ASCII 123). -/
def lbraceChar : Char := Char.ofNat 123

/-- The closing-brace character (ASCII 125). -/
def rbraceChar : Char := Char.ofNat 125

/-- Skips JSON insignificant whitespace. -/
def skipWs : List Char → List Char
  | [] => []
  | c :: rest =>
    if c = ' ' ∨ c = '\n' ∨ c = '\t' ∨ c = '\r' then skipWs rest else c :: rest

/-- Reads the body of a JSON string after its opening quote, handling the basic
escapes; returns the string and the remaining input. -/
def parseStringBody (fuel : Nat) (cs : List Char) (acc : List Char) :
    Option (String × List Char) :=
  match fuel, cs with
  | 0, _ => none
  | _, [] => none
  | fuel + 1, c :: rest =>
    if c = quoteChar then some (String.mk acc.reverse, rest)
    else if c = backslashChar then
      match rest with
      | [] => none
      | e :: rest2 =>
        let decoded : Option Char :=
          if e = quoteChar then some quoteChar
          else if e = backslashChar then some backslashChar
          else if e = '/' then some '/'
          else if e = 'n' then some '\n'
          else if e = 't' then some '\t'
          else if e = 'r' then some '\r'
          else none
        match decoded with
        | some d => parseStringBody fuel rest2 (d :: acc)
        | none => none
    else parseStringBody fuel rest (c :: acc)

/-- Reads a run of decimal digits into a `Nat`. -/
def parseDigits : List Char → Nat → Nat × List Char
  | [], acc => (acc, [])
  | c :: rest, acc =>
    if c.isDigit then parseDigits rest (acc * 10 + (c.toNat - 48)) else (acc, c :: rest)

mutual

/-- Parses one JSON value; `fuel` bounds the nesting/step count. -/
def parseValue (fuel : Nat) (cs : List Char) : Option (JsonValue × List Char) :=
  match fuel with
  | 0 => none
  | fuel + 1 =>
    match skipWs cs with
    | [] => none
    | c :: rest =>
      if c = quoteChar then
        match parseStringBody (rest.length + 1) rest [] with
        | some (s, r) => some (JsonValue.str s, r)
        | none => none
      else if c = lbraceChar then
        match skipWs rest with
        | c2 :: r2 =>
          if c2 = rbraceChar then some (JsonValue.obj [], r2)
          else parseMembers fuel (c2 :: r2) []
        | [] => none
      else if c = '[' then
        match skipWs rest with
        | ']' :: r2 => some (JsonValue.arr [], r2)
        | cs2 => parseItems fuel cs2 []
      else if c = 'n' then
        match rest with
        | 'u' :: 'l' :: 'l' :: r2 => some (JsonValue.null, r2)
        | _ => none
      else if c = 't' then
        match rest with
        | 'r' :: 'u' :: 'e' :: r2 => some (JsonValue.bool true, r2)
        | _ => none
      else if c = 'f' then
        match rest with
        | 'a' :: 'l' :: 's' :: 'e' :: r2 => some (JsonValue.bool false, r2)
        | _ => none
      else if c.isDigit then
        let (n, r2) := parseDigits (c :: rest) 0
        some (JsonValue.num n, r2)
      else none

/-- Parses the members of a JSON object after its opening brace (non-empty case). -/
def parseMembers (fuel : Nat) (cs : List Char) (acc : List (String × JsonValue)) :
    Option (JsonValue × List Char) :=
  match fuel with
  | 0 => none
  | fuel + 1 =>
    match skipWs cs with
    | [] => none
    | c :: rest =>
      if c = quoteChar then
        match parseStringBody (rest.length + 1) rest [] with
        | none => none
        | some (key, r1) =>
          match skipWs r1 with
          | ':' :: r2 =>
            match parseValue fuel r2 with
            | none => none
            | some (v, r3) =>
              match skipWs r3 with
              | c4 :: r4 =>
                if c4 = ',' then parseMembers fuel r4 ((key, v) :: acc)
                else if c4 = rbraceChar then
                  some (JsonValue.obj ((key, v) :: acc).reverse, r4)
                else none
              | [] => none
          | _ => none
      else none

/-- Parses the items of a JSON array after its opening bracket (non-empty case). -/
def parseItems (fuel : Nat) (cs : List Char) (acc : List JsonValue) :
    Option (JsonValue × List Char) :=
  match fuel with
  | 0 => none
  | fuel + 1 =>
    match parseValue fuel cs with
    | none => none
    | some (v, r1) =>
      match skipWs r1 with
      | ',' :: r2 => parseItems fuel r2 (v :: acc)
      | ']' :: r2 => some (JsonValue.arr (v :: acc).reverse, r2)
      | _ => none

end

/-- Parses a whole input as a single JSON value (no trailing input allowed). -/
def parseJson (cs : List Char) : Option JsonValue :=
  match parseValue (cs.length + 1) cs with
  | some (v, rest) =>
    match skipWs rest with
    | [] => some v
    | _ => none
  | none => none

/-- Collects a list of optional values, failing if any element failed. -/
def collectOpts : List (Option α) → Option (List α)
  | [] => some []
  | none :: _ => none
  | some a :: rest =>
    match collectOpts rest with
    | some xs => some (a :: xs)
    | none => none

/-- First value bound to `key` among an object's members. -/
def lookupField (fields : List (String × JsonValue)) (key : String) : Option JsonValue :=
  match fields with
  | [] => none
  | (k, v) :: rest => if k = key then some v else lookupField rest key

/-- Expects a JSON string. -/
def asString : JsonValue → Option String
  | JsonValue.str s => some s
  | _ => none

/-- Expects a JSON array of strings. -/
def asStringList : JsonValue → Option (List String)
  | JsonValue.arr items => collectOpts (items.map asString)
  | _ => none

/-- Expects a JSON number that fits in a byte. -/
def asByte : JsonValue → Option Nat
  | JsonValue.num n => if n ≤ 255 then some n else none
  | _ => none

/-- Expects a JSON array of bytes (the `Vec<u8>` serde representation). -/
def asByteList : JsonValue → Option (List Nat)
  | JsonValue.arr items => collectOpts (items.map asByte)
  | _ => none

/-- Modelled from the spec: serde unit-variant decoding of `AuthorizationType`
from its variant-name string. -/
def decodeAuthorizationType : JsonValue → Option AuthorizationType
  | JsonValue.str s => if s = "Trust" then some AuthorizationType.Trust else none
  | _ => none

/-- Modelled from the spec: serde unit-variant decoding of `PersistenceType`. -/
def decodePersistenceType : JsonValue → Option PersistenceType
  | JsonValue.str s => if s = "Any" then some PersistenceType.Any else none
  | _ => none

/-- Modelled from the spec: serde unit-variant decoding of `RouteType`. -/
def decodeRouteType : JsonValue → Option RouteType
  | JsonValue.str s => if s = "Any" then some RouteType.Any else none
  | _ => none

/-- Modelled from the spec: serde decoding of a `SplinterNode` from a JSON object
with the schema's verbatim field names. -/
def decodeSplinterNode : JsonValue → Option SplinterNode
  | JsonValue.obj fields => do
    let node_id ← (lookupField fields "node_id").bind asString
    let endpoint ← (lookupField fields "endpoint").bind asString
    pure { node_id := node_id, endpoint := endpoint }
  | _ => none

/-- Modelled from the spec: serde decoding of a `SplinterService` from a JSON
object with the schema's verbatim field names. -/
def decodeSplinterService : JsonValue → Option SplinterService
  | JsonValue.obj fields => do
    let service_id ← (lookupField fields "service_id").bind asString
    let service_type ← (lookupField fields "service_type").bind asString
    let allowed_nodes ← (lookupField fields "allowed_nodes").bind asStringList
    pure { service_id := service_id, service_type := service_type,
           allowed_nodes := allowed_nodes }
  | _ => none

/-- Modelled from the spec: serde decoding of a `CreateCircuit` from a JSON
object; every schema field must be present and well-typed. -/
def decodeCreateCircuit : JsonValue → Option CreateCircuit
  | JsonValue.obj fields => do
    let circuit_id ← (lookupField fields "circuit_id").bind asString
    let rosterJson ← lookupField fields "roster"
    let roster ←
      match rosterJson with
      | JsonValue.arr items => collectOpts (items.map decodeSplinterService)
      | _ => none
    let membersJson ← lookupField fields "members"
    let members ←
      match membersJson with
      | JsonValue.arr items => collectOpts (items.map decodeSplinterNode)
      | _ => none
    let authorization_type ←
      (lookupField fields "authorization_type").bind decodeAuthorizationType
    let persistence ← (lookupField fields "persistence").bind decodePersistenceType
    let routes ← (lookupField fields "routes").bind decodeRouteType
    let circuit_management_type ←
      (lookupField fields "circuit_management_type").bind asString
    let application_metadata ←
      (lookupField fields "application_metadata").bind asByteList
    pure { circuit_id := circuit_id, roster := roster, members := members,
           authorization_type := authorization_type, persistence := persistence,
           routes := routes, circuit_management_type := circuit_management_type,
           application_metadata := application_metadata }
  | _ => none

/-- Modelled from the spec: `serde_json::from_slice::<CreateCircuit>` — parse the
accumulated body as one JSON document and decode it against the schema. -/
def serde_json_from_slice (body : List Char) : Option CreateCircuit :=
  (parseJson body).bind decodeCreateCircuit

/-! ## Payload ingestor, `CreateCircuit::from_payload` -/

/-- Outcome of driving the `from_payload` future to completion: it resolves to a
proposal, fails with the error propagated from the payload stream, or — because
the JSON decode result is `unwrap`ped — panics, aborting the request-handling
future instead of producing an error value. -/
inductive PayloadOutcome
  | ok (proposal : CreateCircuit)
  | err (e : String)
  | panicked
deriving DecidableEq

/-- The `payload.from_err().fold(BytesMut::new(), ...)` stage: concatenates the
streamed chunks in arrival order into one contiguous body, propagating the first
stream error. A chunk is a `List Char` (ASCII bytes); a stream item is a chunk
or a transport error. -/
def foldBody : List (Except String (List Char)) → Except String (List Char)
  | [] => Except.ok []
  | Except.error e :: _ => Except.error e
  | Except.ok chunk :: rest =>
    match foldBody rest with
    | Except.error e => Except.error e
    | Except.ok body => Except.ok (chunk ++ body)

/-- `CreateCircuit::from_payload`: accumulate the body, then
`serde_json::from_slice(&body).unwrap()` — a decode failure is unwrapped and
panics rather than surfacing as an error value. -/
def CreateCircuit.from_payload (payload : List (Except String (List Char))) :
    PayloadOutcome :=
  match foldBody payload with
  | Except.error e => PayloadOutcome.err e
  | Except.ok body =>
    match serde_json_from_slice body with
    | some proposal => PayloadOutcome.ok proposal
    | none => PayloadOutcome.panicked

/-- The literal request body of the spec's JSON-ingestion property. -/
def literalBody : String :=
  "\x7b\"circuit_id\":\"c1\",\"roster\":[],\"members\":[],\"authorization_type\":\"Trust\",\"persistence\":\"Any\",\"routes\":\"Any\",\"circuit_management_type\":\"mgmt\",\"application_metadata\":[]\x7d"

/-- The proposal the literal body decodes to. -/
def literalProposal : CreateCircuit :=
  { circuit_id := "c1", roster := [], members := [],
    authorization_type := AuthorizationType.Trust,
    persistence := PersistenceType.Any, routes := RouteType.Any,
    circuit_management_type := "mgmt", application_metadata := [] }

/-- The domain service a wire service converts to (element form of `from_proto`). -/
def serviceOfProto (p : admin.SplinterService) : SplinterService :=
  { service_id := p.service_id, service_type := p.service_type,
    allowed_nodes := p.allowed_nodes }

/-- The domain node a wire node converts to (element form of `from_proto`). -/
def nodeOfProto (p : admin.SplinterNode) : SplinterNode :=
  { node_id := p.node_id, endpoint := p.endpoint }

/-- A wire circuit whose authorization type is the unset sentinel. -/
def m_unset : admin.Circuit :=
  { circuit_id := "c1", roster := [], members := [],
    authorization_type := admin.Circuit_AuthorizationType.UNSET_AUTHORIZATION_TYPE,
    persistence := admin.Circuit_PersistenceType.ANY_PERSISTENCE,
    routes := admin.Circuit_RouteType.ANY_ROUTE,
    circuit_management_type := "mgmt", application_metadata := [] }

/-- A wire circuit all of whose enumerated fields carry valid (non-unset) codes. -/
def m_set : admin.Circuit :=
  { circuit_id := "c1", roster := [], members := [],
    authorization_type := admin.Circuit_AuthorizationType.TRUST_AUTHORIZATION,
    persistence := admin.Circuit_PersistenceType.ANY_PERSISTENCE,
    routes := admin.Circuit_RouteType.ANY_ROUTE,
    circuit_management_type := "mgmt", application_metadata := [] }

/-! ## Lemmas -/

/-- Collecting a mapped list of conversions that each succeed yields the mapped
list of their results, in order. -/
lemma collectResults_map (l : List α) (g : α → Except MarshallingError β)
    (φ : α → β) (h : ∀ a, g a = Except.ok (φ a)) :
    collectResults (l.map g) = Except.ok (l.map φ) := by
  induction l with
  | nil => rfl
  | cons a t ih => simp [collectResults, h, ih]

/-- `SplinterService::from_proto` always succeeds and keeps every field. -/
lemma service_from_proto_eq (p : admin.SplinterService) :
    SplinterService.from_proto p = Except.ok (serviceOfProto p) := by
  simp [SplinterService.from_proto, serviceOfProto]

/-- `SplinterNode::from_proto` always succeeds and keeps every field. -/
lemma node_from_proto_eq (p : admin.SplinterNode) :
    SplinterNode.from_proto p = Except.ok (nodeOfProto p) := rfl

/-- Element-wise service conversion of any roster succeeds, in order. -/
lemma collect_services (l : List admin.SplinterService) :
    collectResults (l.map SplinterService.from_proto) = Except.ok (l.map serviceOfProto) :=
  collectResults_map l _ _ service_from_proto_eq

/-- Element-wise node conversion of any member list succeeds, in order. -/
lemma collect_nodes (l : List admin.SplinterNode) :
    collectResults (l.map SplinterNode.from_proto) = Except.ok (l.map nodeOfProto) :=
  collectResults_map l _ _ node_from_proto_eq

/-- A domain service survives the wire round trip unchanged. -/
lemma service_roundtrip (s : SplinterService) :
    SplinterService.from_proto (SplinterService.into_proto s) = Except.ok s := by
  cases s
  simp [SplinterService.from_proto, SplinterService.into_proto]

/-- A domain node survives the wire round trip unchanged. -/
lemma node_roundtrip (n : SplinterNode) :
    SplinterNode.from_proto (SplinterNode.into_proto n) = Except.ok n := rfl

/-- Element-wise round trip of a whole roster. -/
lemma collect_services_roundtrip (roster : List SplinterService) :
    collectResults (roster.map (SplinterService.from_proto ∘ SplinterService.into_proto)) =
      Except.ok roster := by
  have h := collectResults_map roster
    (SplinterService.from_proto ∘ SplinterService.into_proto) (fun s => s)
    (fun a => service_roundtrip a)
  simpa using h

/-- Element-wise round trip of a whole member list. -/
lemma collect_nodes_roundtrip (members : List SplinterNode) :
    collectResults (members.map (SplinterNode.from_proto ∘ SplinterNode.into_proto)) =
      Except.ok members := by
  have h := collectResults_map members
    (SplinterNode.from_proto ∘ SplinterNode.into_proto) (fun n => n)
    (fun a => node_roundtrip a)
  simpa using h

set_option maxRecDepth 100000 in
/-- The literal spec body decodes to the expected proposal. -/
lemma literal_body_decodes :
    serde_json_from_slice literalBody.data = some literalProposal := by decide

/-! ## Claim theorems -/

/-- C1: for every `CreateCircuit` value, `into_proto` succeeds and converting the
resulting wire circuit back with `from_proto` yields `Ok` of a value equal to the
original field-for-field, including the order of `roster`, `members`, and every
service's `allowed_nodes`. -/
theorem round_trip_into_from_proto (x : CreateCircuit) :
    ∃ req, CreateCircuit.into_proto x = Except.ok req ∧
      CreateCircuit.from_proto req.circuit = Except.ok x := by
  obtain ⟨cid, roster, members, auth, pers, routes, cmt, meta⟩ := x
  cases auth
  cases pers
  cases routes
  refine ⟨_, rfl, ?_⟩
  simp [CreateCircuit.into_proto, CreateCircuit.from_proto,
    collect_services_roundtrip, collect_nodes_roundtrip]

/-- C2: `from_proto` fails exactly when one of the three enumerated wire fields
carries the unset sentinel, the error is always `MarshallingError::UnsetField`,
and every non-unset code combination converts successfully. -/
theorem from_proto_error_iff_unset (m : admin.Circuit) :
    ((∃ e, CreateCircuit.from_proto m = Except.error e) ↔
      (m.authorization_type =
          admin.Circuit_AuthorizationType.UNSET_AUTHORIZATION_TYPE ∨
        m.persistence = admin.Circuit_PersistenceType.UNSET_PERSISTENCE_TYPE ∨
        m.routes = admin.Circuit_RouteType.UNSET_ROUTE_TYPE)) ∧
    (∀ e, CreateCircuit.from_proto m = Except.error e →
      ∃ s, e = MarshallingError.UnsetField s) ∧
    ((m.authorization_type ≠
          admin.Circuit_AuthorizationType.UNSET_AUTHORIZATION_TYPE ∧
        m.persistence ≠ admin.Circuit_PersistenceType.UNSET_PERSISTENCE_TYPE ∧
        m.routes ≠ admin.Circuit_RouteType.UNSET_ROUTE_TYPE) →
      ∃ c, CreateCircuit.from_proto m = Except.ok c) := by
  obtain ⟨cid, roster, members, auth, pers, routes, cmt, meta⟩ := m
  cases auth <;> cases pers <;> cases routes <;>
    simp [CreateCircuit.from_proto, collect_services, collect_nodes]

/-- Witness for C2 at concrete circuits: the unset-authorization circuit is
rejected and the fully set circuit converts. -/
theorem from_proto_error_iff_unset_witness :
    (∃ e, CreateCircuit.from_proto m_unset = Except.error e) ∧
    (∃ c, CreateCircuit.from_proto m_set = Except.ok c) ∧
    (∃ s, MarshallingError.UnsetField "Unset authorization type" =
      MarshallingError.UnsetField s) :=
  ⟨(from_proto_error_iff_unset m_unset).1.mpr (Or.inl rfl),
   (from_proto_error_iff_unset m_set).2.2 ⟨by decide, by decide, by decide⟩,
   (from_proto_error_iff_unset m_unset).2.1 _ rfl⟩

/-- C3 counterexample: a body whose bytes are not valid JSON for the schema does
not fail with an error value — the `unwrap` panics, so driving the future on that
input reaches the abort outcome, contradicting the claim that the abort branch is
unreachable. -/
theorem from_payload_invalid_json_panics :
    CreateCircuit.from_payload [Except.ok ("not json".toList)] =
      PayloadOutcome.panicked := by decide

/-- C3 amended: driving the `from_payload` future either resolves to a decoded
`CreateCircuit`, fails with the error propagated from the payload stream, or —
when the accumulated bytes are not valid JSON for the schema — panics (aborting
the request-handling future) instead of failing with an error value. -/
theorem from_payload_outcome_trichotomy
    (payload : List (Except String (List Char))) :
    (∃ proposal body, foldBody payload = Except.ok body ∧
        serde_json_from_slice body = some proposal ∧
        CreateCircuit.from_payload payload = PayloadOutcome.ok proposal) ∨
    (∃ e, foldBody payload = Except.error e ∧
        CreateCircuit.from_payload payload = PayloadOutcome.err e) ∨
    (∃ body, foldBody payload = Except.ok body ∧
        serde_json_from_slice body = none ∧
        CreateCircuit.from_payload payload = PayloadOutcome.panicked) := by
  cases hf : foldBody payload with
  | error e =>
    exact Or.inr (Or.inl ⟨e, rfl, by simp [CreateCircuit.from_payload, hf]⟩)
  | ok body =>
    cases hp : serde_json_from_slice body with
    | none =>
      exact Or.inr (Or.inr ⟨body, rfl, hp, by
        simp [CreateCircuit.from_payload, hf, hp]⟩)
    | some proposal =>
      exact Or.inl ⟨proposal, body, rfl, hp, by
        simp [CreateCircuit.from_payload, hf, hp]⟩

/-- C4 counterexample: the unset authorization-type field yields the reason
string "Unset authorization type", not the claimed "authorization_type unset". -/
theorem from_proto_unset_reason_counterexample :
    CreateCircuit.from_proto m_unset =
      Except.error (MarshallingError.UnsetField "Unset authorization type") ∧
    "Unset authorization type" ≠ "authorization_type unset" :=
  ⟨rfl, by decide⟩

/-- C4 amended: an unset enumerated wire field makes `from_proto` return
`MarshallingError::UnsetField` whose reason string is "Unset authorization
type", "Unset persistence type" or "Unset route type" for the first unset field
in checking order. -/
theorem from_proto_unset_reason_strings (m : admin.Circuit) :
    (m.authorization_type =
        admin.Circuit_AuthorizationType.UNSET_AUTHORIZATION_TYPE →
      CreateCircuit.from_proto m =
        Except.error (MarshallingError.UnsetField "Unset authorization type")) ∧
    (m.authorization_type = admin.Circuit_AuthorizationType.TRUST_AUTHORIZATION →
      m.persistence = admin.Circuit_PersistenceType.UNSET_PERSISTENCE_TYPE →
      CreateCircuit.from_proto m =
        Except.error (MarshallingError.UnsetField "Unset persistence type")) ∧
    (m.authorization_type = admin.Circuit_AuthorizationType.TRUST_AUTHORIZATION →
      m.persistence = admin.Circuit_PersistenceType.ANY_PERSISTENCE →
      m.routes = admin.Circuit_RouteType.UNSET_ROUTE_TYPE →
      CreateCircuit.from_proto m =
        Except.error (MarshallingError.UnsetField "Unset route type")) := by
  obtain ⟨cid, roster, members, auth, pers, routes, cmt, meta⟩ := m
  cases auth <;> cases pers <;> cases routes <;>
    simp [CreateCircuit.from_proto]

/-- Witness for C4 amended at the concrete unset-authorization circuit. -/
theorem from_proto_unset_reason_strings_witness :
    CreateCircuit.from_proto m_unset =
      Except.error (MarshallingError.UnsetField "Unset authorization type") :=
  (from_proto_unset_reason_strings m_unset).1 rfl

/-- C5: `CreateCircuit::into_proto` always returns `Ok`, and
`SplinterNode::into_proto` / `SplinterService::into_proto` are total plain
functions carrying every field over. -/
theorem into_proto_total :
    (∀ x : CreateCircuit, ∃ req, CreateCircuit.into_proto x = Except.ok req) ∧
    (∀ n : SplinterNode, SplinterNode.into_proto n =
      { node_id := n.node_id, endpoint := n.endpoint }) ∧
    (∀ s : SplinterService, SplinterService.into_proto s =
      { service_id := s.service_id, service_type := s.service_type,
        allowed_nodes := s.allowed_nodes }) :=
  ⟨fun _ => ⟨_, rfl⟩, fun _ => rfl, fun _ => rfl⟩

/-- C6: `roster`, `members` and every service's `allowed_nodes` pass through both
conversion directions in input order with no re-sorting and no de-duplication;
in particular `allowed_nodes = ["n2", "n1", "n3"]` converts either way with that
exact order. -/
theorem sequence_order_preserved :
    (∀ s : SplinterService,
      (SplinterService.into_proto s).allowed_nodes = s.allowed_nodes) ∧
    (∀ p : admin.SplinterService,
      SplinterService.from_proto p = Except.ok (serviceOfProto p)) ∧
    (∀ x : CreateCircuit, ∀ req, CreateCircuit.into_proto x = Except.ok req →
      req.circuit.roster = x.roster.map SplinterService.into_proto ∧
      req.circuit.members = x.members.map SplinterNode.into_proto) ∧
    (∀ m : admin.Circuit, ∀ c : CreateCircuit,
      CreateCircuit.from_proto m = Except.ok c →
      c.roster = m.roster.map serviceOfProto ∧
      c.members = m.members.map nodeOfProto) ∧
    ((SplinterService.into_proto
        { service_id := "s1", service_type := "t",
          allowed_nodes := ["n2", "n1", "n3"] }).allowed_nodes =
      ["n2", "n1", "n3"]) ∧
    (SplinterService.from_proto
        { service_id := "s1", service_type := "t",
          allowed_nodes := ["n2", "n1", "n3"] } =
      Except.ok
        { service_id := "s1", service_type := "t",
          allowed_nodes := ["n2", "n1", "n3"] }) := by
  refine ⟨fun s => rfl, service_from_proto_eq, ?_, ?_, rfl, rfl⟩
  · intro x req h
    simp only [CreateCircuit.into_proto, Except.ok.injEq] at h
    subst h
    exact ⟨rfl, rfl⟩
  · intro m c h
    obtain ⟨cid, roster, members, auth, pers, routes, cmt, meta⟩ := m
    have hshape : CreateCircuit.from_proto
        { circuit_id := cid, roster := roster, members := members,
          authorization_type := auth, persistence := pers, routes := routes,
          circuit_management_type := cmt, application_metadata := meta } =
          Except.ok c := h
    cases auth with
    | UNSET_AUTHORIZATION_TYPE => exact absurd hshape (by simp [CreateCircuit.from_proto])
    | TRUST_AUTHORIZATION =>
      cases pers with
      | UNSET_PERSISTENCE_TYPE => exact absurd hshape (by simp [CreateCircuit.from_proto])
      | ANY_PERSISTENCE =>
        cases routes with
        | UNSET_ROUTE_TYPE => exact absurd hshape (by simp [CreateCircuit.from_proto])
        | ANY_ROUTE =>
          rw [show CreateCircuit.from_proto
              { circuit_id := cid, roster := roster, members := members,
                authorization_type :=
                  admin.Circuit_AuthorizationType.TRUST_AUTHORIZATION,
                persistence := admin.Circuit_PersistenceType.ANY_PERSISTENCE,
                routes := admin.Circuit_RouteType.ANY_ROUTE,
                circuit_management_type := cmt, application_metadata := meta } =
              Except.ok
                { circuit_id := cid, roster := roster.map serviceOfProto,
                  members := members.map nodeOfProto,
                  authorization_type := AuthorizationType.Trust,
                  persistence := PersistenceType.Any, routes := RouteType.Any,
                  circuit_management_type := cmt, application_metadata := meta }
            from by simp [CreateCircuit.from_proto, collect_services, collect_nodes]]
            at hshape
          injection hshape with hc
          subst hc
          exact ⟨rfl, rfl⟩

/-- Witness for C6 at concrete values: both hypothesis-bearing parts applied to
the fully set circuit and its decoded proposal. -/
theorem sequence_order_preserved_witness :
    ((⟨m_set⟩ : admin.CircuitCreateRequest).circuit.roster =
        literalProposal.roster.map SplinterService.into_proto ∧
      (⟨m_set⟩ : admin.CircuitCreateRequest).circuit.members =
        literalProposal.members.map SplinterNode.into_proto) ∧
    (literalProposal.roster = m_set.roster.map serviceOfProto ∧
      literalProposal.members = m_set.members.map nodeOfProto) :=
  ⟨sequence_order_preserved.2.2.1 literalProposal ⟨m_set⟩ rfl,
   sequence_order_preserved.2.2.2.1 m_set literalProposal rfl⟩

set_option maxRecDepth 100000 in
/-- C7: for every split of the literal spec body into two chunks, the payload
ingestor resolves to the same proposal (circuit id "c1", empty roster and
members) — the outcome depends only on the concatenation of the chunks. -/
theorem from_payload_literal_chunk_independence (c1 c2 : List Char)
    (h : c1 ++ c2 = literalBody.toList) :
    CreateCircuit.from_payload [Except.ok c1, Except.ok c2] =
      PayloadOutcome.ok literalProposal := by
  have hfold : foldBody [Except.ok c1, Except.ok c2] = Except.ok (c1 ++ c2) := by
    simp [foldBody]
  simp [CreateCircuit.from_payload, hfold, h, literal_body_decodes]

set_option maxRecDepth 100000 in
/-- Witness for C7 at a concrete split of the literal body after 20 characters. -/
theorem from_payload_literal_chunk_independence_witness :
    CreateCircuit.from_payload
      [Except.ok (literalBody.toList.take 20),
       Except.ok (literalBody.toList.drop 20)] =
      PayloadOutcome.ok literalProposal :=
  from_payload_literal_chunk_independence _ _
    (List.take_append_drop 20 literalBody.toList)

/-- C8: converting a store error into a `CircuitRouteError` wraps it unchanged in
the `CircuitStoreError` variant, whose `source` reports the original inner error
and whose rendering is the inner diagnostic, while `NotFound` reports no cause. -/
theorem circuit_route_error_wraps_store_error (e : store.CircuitStoreError)
    (msg : String) :
    CircuitRouteError.fromStore e = CircuitRouteError.CircuitStoreError e ∧
    (CircuitRouteError.fromStore e).source = some (DynError.circuitStore e) ∧
    (CircuitRouteError.fromStore e).display = e.display ∧
    (CircuitRouteError.NotFound msg).source = none :=
  ⟨rfl, rfl, rfl, rfl⟩

/-- C9: the Display rendering of `MarshallingError::UnsetField(s)` is the
constant text "Invalid enumerated type" for every reason string `s`, and
`source()` is `None` on every `MarshallingError`. -/
theorem marshalling_error_display_constant (s : String) :
    (MarshallingError.UnsetField s).display = "Invalid enumerated type" ∧
    (MarshallingError.UnsetField s).source = none ∧
    ∀ e : MarshallingError, e.source = none :=
  ⟨rfl, rfl, fun e => match e with | MarshallingError.UnsetField _ => rfl⟩

/-- C10: `EnvVarConfig::build` produces a `PartialConfig` whose source is
`ConfigSource::Environment` and whose optional state/cert directory strings are
exactly the captured values, unchanged. -/
theorem env_var_config_build_correct (c : EnvVarConfig) :
    c.build =
      { source := ConfigSource.Environment, state_dir := c.state_dir,
        cert_dir := c.cert_dir } :=
  rfl
